import Mathlib

/-!
Verification of the Stock Analytics API proxy (`src/main.py`).

The program is a FastAPI service that proxies the FinancialModelingPrep
REST API.  We embed the JSON data model, Python truthiness, the upstream
fetch helper `fetch_fmp_data`, the three stock endpoints and the two
pydantic response schemas the claims mention, and prove the spec's claims
about them.

Modelling conventions:
* JSON values are the inductive `Json`; numbers are modelled as `Int`
  (no claim depends on fractional arithmetic).
* A Python value that can be `None` is an `Option Json`; `none` is
  Python's `None` (the "no data" sentinel).  Note that a parsed JSON
  `null` is the Python value `None` as well, which the truthiness test in
  `fetch_fmp_data` collapses to the sentinel.
* An upstream HTTP exchange is an `UpstreamResult`: either a response
  (status code, body text, and the JSON parse of that body — `none` when
  the body is not valid JSON, e.g. an empty body) or a network error
  raised by the client before any response exists.
* An HTTP client is a function from the request URL to an
  `UpstreamResult`; handlers take the client and the path parameter.
* Endpoint handlers return `Except HTTPError v`: `Except.error` models a
  raised `HTTPException` (or FastAPI's generic 500 page for an unhandled
  exception), `Except.ok` the handler's Python return value, before
  FastAPI serialises it through the `response_model`.  The pydantic
  validation/serialisation of `response_model=StockQuote` is modelled
  separately by `StockQuote.validate` / `StockQuote.toJson`.
-/

namespace StockAPI

/-- A JSON value, as produced by `response.json()` in `fetch_fmp_data`.
Numbers are modelled as integers. -/
inductive Json where
  | null : Json
  | bool (b : Bool) : Json
  | num (n : Int) : Json
  | str (s : String) : Json
  | arr (elems : List Json) : Json
  | obj (fields : List (String × Json)) : Json

/-- Python truthiness of a parsed JSON value (`if data`): `None`, `False`,
`0`, `""`, `[]` and `{}` are falsy, everything else truthy. -/
def Json.truthy : Json → Bool
  | .null => false
  | .bool b => b
  | .num n => n != 0
  | .str s => s != ""
  | .arr elems => !elems.isEmpty
  | .obj fields => !fields.isEmpty

/-- Python truthiness of a possibly-`None` value. -/
def pyTruthy : Option Json → Bool
  | none => false
  | some j => j.truthy

/-- Python `isinstance(x, list)` on a possibly-`None` value. -/
def isListOpt : Option Json → Bool
  | some (Json.arr _) => true
  | _ => false

/-- First-match lookup in a JSON object's field list (Python `d[k]` /
`k in d`; a parsed JSON object has no duplicate keys). -/
def lookupKey : List (String × Json) → String → Option Json
  | [], _ => none
  | (k, v) :: rest, s => if k = s then some v else lookupKey rest s

/-- Lookup of a key in a JSON value, `none` when absent or not an object. -/
def Json.lookup (j : Json) (key : String) : Option Json :=
  match j with
  | .obj fields => lookupKey fields key
  | _ => none

/-- The field names of a JSON object (empty for non-objects). -/
def Json.keys : Json → List String
  | .obj fields => fields.map Prod.fst
  | _ => []

/-- Python `x == s` for a JSON value `x` and a string `s`: only equal
strings compare equal across JSON types. -/
def Json.eqStr : Json → String → Bool
  | .str t, s => t = s
  | _, _ => false

/-- A raised HTTP error: `HTTPException(status_code, detail)`, or the
response FastAPI produces for an unhandled exception. -/
structure HTTPError where
  status_code : Nat
  detail : String
deriving DecidableEq

/-- An upstream HTTP response as seen by `httpx`: status code, body text,
and the JSON parse of the body (`none` when the body is not valid JSON —
in particular when the body is empty, since `""` is not valid JSON and
`response.json()` raises on it). -/
structure UpstreamResponse where
  status : Nat
  text : String
  json : Option Json

/-- The outcome of `client.get(url)`: a response, or an exception raised
before any response exists (connection failure, timeout, ...). -/
inductive UpstreamResult where
  | response (r : UpstreamResponse) : UpstreamResult
  | networkError : UpstreamResult

/-- An HTTP client: what `client.get` yields at each URL. -/
def Client := String → UpstreamResult

/-- `BASE_URL = "https://financialmodelingprep.com/api/v3"` (line 23). -/
def BASE_URL : String := "https://financialmodelingprep.com/api/v3"

/-- The URL built by `fetch_fmp_data` (line 134):
`f"{BASE_URL}{endpoint}?apikey={API_KEY}"`. -/
def fmp_url (apiKey endpoint : String) : String :=
  BASE_URL ++ endpoint ++ "?apikey=" ++ apiKey

/-- `httpx.Response.raise_for_status` raises `HTTPStatusError` exactly for
non-2xx status codes. -/
def is2xx (n : Nat) : Bool := 200 ≤ n && n ≤ 299

/-- `An unexpected internal error occurred.` — the `HTTPException(500, ...)`
raised by the generic `except Exception` branch (line 146). -/
def internalError : HTTPError :=
  ⟨500, "An unexpected internal error occurred."⟩

/-- FastAPI's response for an exception no handler catches (e.g. a
`TypeError` raised inside an endpoint body). -/
def unhandledError : HTTPError := ⟨500, "Internal Server Error"⟩

/-- `fetch_fmp_data` (lines 131-146): GET `{BASE_URL}{endpoint}?apikey={key}`;
`raise_for_status` maps a non-2xx response to an `HTTPException` carrying
the upstream status and `f"Error from external API: {text}"`; otherwise the
body is parsed and `data if data else None` is returned; any other
exception (network failure, JSON decode failure) becomes the generic
`HTTPException(500, ...)`. -/
def fetch_fmp_data (apiKey : String) (client : Client) (endpoint : String) :
    Except HTTPError (Option Json) :=
  let url := fmp_url apiKey endpoint
  match client url with
  | .networkError => .error internalError
  | .response r =>
    if is2xx r.status then
      match r.json with
      | none => .error internalError
      | some data => .ok (if data.truthy then some data else none)
    else
      .error ⟨r.status, "Error from external API: " ++ r.text⟩

/-- Does `pat` occur at the start of `s`? (list-of-characters form). -/
def charSeqStarts : List Char → List Char → Bool
  | [], _ => true
  | _ :: _, [] => false
  | p :: ps, c :: cs => p == c && charSeqStarts ps cs

/-- Does `pat` occur contiguously anywhere in `s`? -/
def charSeqOccurs (pat : List Char) : List Char → Bool
  | [] => charSeqStarts pat []
  | c :: cs => charSeqStarts pat (c :: cs) || charSeqOccurs pat cs

/-- Python `key in x` on a JSON value: key lookup for a dict, element
equality for a list, substring test for a string; for any other value
(`int`, `float`, `bool`) Python raises `TypeError: argument of type ... is
not iterable`, which no handler catches, so FastAPI answers with its
generic 500 page. -/
def pyContains (j : Json) (key : String) : Except HTTPError Bool :=
  match j with
  | .obj fields => .ok (lookupKey fields key).isSome
  | .arr elems => .ok (elems.any (·.eqStr key))
  | .str s => .ok (charSeqOccurs key.data s.data)
  | _ => .error unhandledError

/-- Python `x[key]` with a string key on a JSON value: dict lookup
(`KeyError` when absent); a `TypeError` for a list or string (indices must
be integers) or any other value — both uncaught, hence FastAPI's generic
500. -/
def pyIndexStr (j : Json) (key : String) : Except HTTPError Json :=
  match j with
  | .obj fields =>
    match lookupKey fields key with
    | some v => .ok v
    | none => .error unhandledError
  | _ => .error unhandledError

/-- `get_quote`'s processing of the fetched value (lines 164-169): if
`isinstance(quote_data, list) and quote_data`, return `quote_data[0]`,
else raise `HTTPException(404, "Quote data for ticker not found.")`. -/
def get_quote (quote_data : Option Json) : Except HTTPError Json :=
  match quote_data with
  | some (Json.arr (x :: _)) => .ok x
  | _ => .error ⟨404, "Quote data for ticker not found."⟩

/-- The endpoint `GET /api/quote/{ticker}` (lines 158-169): fetch
`/quote/{ticker}`, then process; an `HTTPException` raised by the fetch
propagates. -/
def get_quote_endpoint (apiKey : String) (client : Client) (ticker : String) :
    Except HTTPError Json :=
  (fetch_fmp_data apiKey client ("/quote/" ++ ticker)).bind get_quote

/-- `get_historical_daily`'s processing of the fetched value (lines
177-182): `if historical_data and "historical" in historical_data: return
historical_data["historical"]`, else `return []`. -/
def get_historical_daily (historical_data : Option Json) : Except HTTPError Json :=
  match historical_data with
  | none => .ok (Json.arr [])
  | some j =>
    if j.truthy then
      match pyContains j "historical" with
      | .error e => .error e
      | .ok true =>
        match pyIndexStr j "historical" with
        | .error e => .error e
        | .ok v => .ok v
      | .ok false => .ok (Json.arr [])
    else
      .ok (Json.arr [])

/-- The endpoint `GET /api/historical/daily/{ticker}` (lines 171-182). -/
def get_historical_daily_endpoint (apiKey : String) (client : Client)
    (ticker : String) : Except HTTPError Json :=
  (fetch_fmp_data apiKey client ("/historical-price-full/" ++ ticker)).bind
    get_historical_daily

/-- Python `x[0] if isinstance(x, list) and x else None` on a
possibly-`None` value. -/
def headOrNull (x : Option Json) : Json :=
  match x with
  | some (Json.arr (e :: _)) => e
  | _ => Json.null

/-- Python `x if isinstance(x, list) else []` on a possibly-`None` value. -/
def listOrEmpty (x : Option Json) : Json :=
  match x with
  | some (Json.arr elems) => Json.arr elems
  | _ => Json.arr []

/-- `get_stock_all_data`'s merge of the three fetched values (lines
195-204): raise 404 `if not any([profile_data, quote_data, intraday_data])`,
else build the `processed_data` dict with
`profile_data[0] if isinstance(profile_data, list) and profile_data else None`
for the profile, the same for the quote, and
`intraday_data if isinstance(intraday_data, list) else []` for the chart. -/
def get_stock_all_data (ticker : String)
    (profile_data quote_data intraday_data : Option Json) :
    Except HTTPError Json :=
  if !(pyTruthy profile_data || pyTruthy quote_data || pyTruthy intraday_data) then
    .error ⟨404, "Could not retrieve any data for ticker " ++ ticker ++ "."⟩
  else
    .ok (Json.obj
      [("profile", headOrNull profile_data),
       ("quote", headOrNull quote_data),
       ("chart_intraday", listOrEmpty intraday_data)])

/-- The endpoint `GET /api/stock/{ticker}` (lines 184-204): fetch the
profile, the quote and the 5-minute chart, then merge.  `asyncio.gather`
runs the three fetches concurrently; with no `return_exceptions`, a raised
`HTTPException` propagates and aborts the request, which the sequential
`bind` chain models (when more than one fetch fails, the real program
surfaces whichever exception materialises first; every theorem below that
involves several fetch outcomes assumes all three fetches return). -/
def get_stock_all_data_endpoint (apiKey : String) (client : Client)
    (ticker : String) : Except HTTPError Json :=
  (fetch_fmp_data apiKey client ("/profile/" ++ ticker)).bind fun profile_data =>
  (fetch_fmp_data apiKey client ("/quote/" ++ ticker)).bind fun quote_data =>
  (fetch_fmp_data apiKey client ("/historical-chart/5min/" ++ ticker)).bind
    fun intraday_data =>
  get_stock_all_data ticker profile_data quote_data intraday_data

/-- Extract a JSON string. -/
def Json.asStr : Json → Option String
  | .str s => some s
  | _ => none

/-- Extract a JSON number. -/
def Json.asNum : Json → Option Int
  | .num n => some n
  | _ => none

/-- The pydantic model `StockQuote` (lines 48-58): ten fields; the four
aliased ones are populated from `changesPercentage`, `dayLow`, `dayHigh`
and `marketCap`; `market_cap` is optional with default `None`. -/
structure StockQuote where
  symbol : String
  name : String
  price : Int
  changes_percentage : Int
  change : Int
  day_low : Int
  day_high : Int
  market_cap : Option Int
  volume : Int
  exchange : String

/-- Pydantic validation of an `Optional[int]` field with default `None`:
an absent or `null` value validates to `None`, a number to itself, and
anything else fails. -/
def optionalIntField (v : Option Json) : Option (Option Int) :=
  match v with
  | none => some Option.none
  | some Json.null => some Option.none
  | some w => (Json.asNum w).map Option.some

/-- Pydantic validation of a JSON value against `StockQuote`: each field
is read from its alias when one is declared and from its name otherwise;
`market_cap` defaults to `None` when `marketCap` is absent or `null`. -/
def StockQuote.validate (j : Json) : Option StockQuote := do
  let symbol ← (j.lookup "symbol").bind Json.asStr
  let name ← (j.lookup "name").bind Json.asStr
  let price ← (j.lookup "price").bind Json.asNum
  let changes_percentage ← (j.lookup "changesPercentage").bind Json.asNum
  let change ← (j.lookup "change").bind Json.asNum
  let day_low ← (j.lookup "dayLow").bind Json.asNum
  let day_high ← (j.lookup "dayHigh").bind Json.asNum
  let market_cap ← optionalIntField (j.lookup "marketCap")
  let volume ← (j.lookup "volume").bind Json.asNum
  let exchange ← (j.lookup "exchange").bind Json.asStr
  pure ⟨symbol, name, price, changes_percentage, change, day_low, day_high,
    market_cap, volume, exchange⟩

/-- FastAPI's serialisation of a validated `StockQuote` through
`response_model=StockQuote`: since `response_model_by_alias` defaults to
`True` and the route does not override it, every field with a declared
alias is keyed by that alias (the camelCase upstream key), the others by
their field name; `None` serialises as `null`. -/
def StockQuote.toJson (q : StockQuote) : Json :=
  Json.obj
    [("symbol", Json.str q.symbol),
     ("name", Json.str q.name),
     ("price", Json.num q.price),
     ("changesPercentage", Json.num q.changes_percentage),
     ("change", Json.num q.change),
     ("dayLow", Json.num q.day_low),
     ("dayHigh", Json.num q.day_high),
     ("marketCap",
      match q.market_cap with
      | some n => Json.num n
      | none => Json.null),
     ("volume", Json.num q.volume),
     ("exchange", Json.str q.exchange)]

/-- The pydantic model `HistoricalDataPoint` (lines 89-102). -/
structure HistoricalDataPoint where
  date : String
  «open» : Int
  high : Int
  low : Int
  close : Int
  adj_close : Int
  volume : Int
  unadjusted_volume : Int
  change : Int
  change_percent : Int
  vwap : Int
  label : String
  change_over_time : Int

/-- The fields of `HistoricalDataPoint`, paired with the upstream key each
is populated from (the declared alias when there is one, the field name
otherwise), transcribed from lines 89-102. -/
def HistoricalDataPoint.fieldAliases : List (String × String) :=
  [("date", "date"),
   ("open", "open"),
   ("high", "high"),
   ("low", "low"),
   ("close", "close"),
   ("adj_close", "adjClose"),
   ("volume", "volume"),
   ("unadjusted_volume", "unadjustedVolume"),
   ("change", "change"),
   ("change_percent", "changePercent"),
   ("vwap", "vwap"),
   ("label", "label"),
   ("change_over_time", "changeOverTime")]

/-- FastAPI's serialisation of a validated `HistoricalDataPoint`: as for
`StockQuote.toJson`, `response_model_by_alias` defaults to `True`, so the
four aliased fields keep their camelCase alias keys in the output. -/
def HistoricalDataPoint.toJson (h : HistoricalDataPoint) : Json :=
  Json.obj
    [("date", Json.str h.date),
     ("open", Json.num h.«open»),
     ("high", Json.num h.high),
     ("low", Json.num h.low),
     ("close", Json.num h.close),
     ("adjClose", Json.num h.adj_close),
     ("volume", Json.num h.volume),
     ("unadjustedVolume", Json.num h.unadjusted_volume),
     ("change", Json.num h.change),
     ("changePercent", Json.num h.change_percent),
     ("vwap", Json.num h.vwap),
     ("label", Json.str h.label),
     ("changeOverTime", Json.num h.change_over_time)]

/-! ### Helper lemmas -/

theorem Json.asStr_eq_some {v : Json} {s : String} (h : Json.asStr v = some s) :
    v = Json.str s := by
  cases v <;> simp_all [Json.asStr]

theorem Json.asNum_eq_some {v : Json} {n : Int} (h : Json.asNum v = some n) :
    v = Json.num n := by
  cases v <;> simp_all [Json.asNum]

theorem headOrNull_of_nonlist {x : Option Json} (h : isListOpt x = false) :
    headOrNull x = Json.null := by
  cases x with
  | none => rfl
  | some j => cases j <;> simp_all [isListOpt, headOrNull]

theorem listOrEmpty_of_nonlist {x : Option Json} (h : isListOpt x = false) :
    listOrEmpty x = Json.arr [] := by
  cases x with
  | none => rfl
  | some j => cases j <;> simp_all [isListOpt, listOrEmpty]

/-- Range invariant of the fetch helper: a value it returns (rather than
raising) is either the `None` sentinel or truthy, because
`data if data else None` collapses every falsy parse to `None`. -/
theorem fetch_ok_pyTruthy (apiKey : String) (client : Client) (endpoint : String)
    (o : Option Json) (h : fetch_fmp_data apiKey client endpoint = .ok o) :
    pyTruthy o = o.isSome := by
  simp only [fetch_fmp_data] at h
  cases hcl : client (fmp_url apiKey endpoint) with
  | networkError => rw [hcl] at h; exact absurd h (by simp)
  | response r =>
    simp only [hcl] at h
    by_cases h2 : is2xx r.status = true
    · rw [if_pos h2] at h
      cases hj : r.json with
      | none => rw [hj] at h; exact absurd h (by simp)
      | some data =>
        simp only [hj] at h
        by_cases ht : data.truthy = true
        · rw [if_pos ht] at h
          injection h with h'
          subst h'
          simp [pyTruthy, ht]
        · rw [if_neg ht] at h
          injection h with h'
          subst h'
          rfl
    · rw [if_neg h2] at h
      exact absurd h (by simp)

/-! ### Claims -/

/-- C2: for every fetched result of the quote endpoint, an empty-list or
non-list result (including the `None` sentinel) makes the handler raise
the 404 "Quote data for ticker not found." exception, and a non-empty
list makes it return element 0. -/
theorem claim_C2 (d : Option Json) :
    ((isListOpt d = false ∨ d = some (Json.arr [])) →
      get_quote d = .error ⟨404, "Quote data for ticker not found."⟩)
    ∧ (∀ x xs, d = some (Json.arr (x :: xs)) → get_quote d = .ok x) := by
  constructor
  · rintro (h | rfl)
    · cases d with
      | none => rfl
      | some j => cases j <;> first | rfl | simp_all [isListOpt]
    · rfl
  · rintro x xs rfl
    rfl

/-- C2 witness: on the empty upstream list the handler raises the 404. -/
theorem claim_C2_witness :
    get_quote (some (Json.arr [])) =
      .error ⟨404, "Quote data for ticker not found."⟩ :=
  (claim_C2 (some (Json.arr []))).1 (Or.inr rfl)

/-- C3 (amended): when the fetched result is the `None` sentinel or a JSON
object without a `historical` key, `/api/historical/daily/{ticker}`
returns the empty list and does not fail; when it is an object with the
key, the handler returns that key's value.  (The original claim's "any
result lacking the field" is too broad: a truthy non-dict result such as
a bare number makes `"historical" in historical_data` raise an uncaught
`TypeError` — see `claim_C3_counterexample`.) -/
theorem claim_C3_amended (d : Option Json) :
    (d = none → get_historical_daily d = .ok (Json.arr []))
    ∧ (∀ fields, d = some (Json.obj fields) →
        lookupKey fields "historical" = none →
        get_historical_daily d = .ok (Json.arr []))
    ∧ (∀ fields v, d = some (Json.obj fields) →
        lookupKey fields "historical" = some v →
        get_historical_daily d = .ok v) := by
  refine ⟨?_, ?_, ?_⟩
  · rintro rfl
    rfl
  · rintro fields rfl hl
    cases fields with
    | nil => rfl
    | cons kv rest => simp [get_historical_daily, Json.truthy, pyContains, hl]
  · rintro fields v rfl hl
    cases fields with
    | nil => simp [lookupKey] at hl
    | cons kv rest =>
      simp [get_historical_daily, Json.truthy, pyContains, pyIndexStr, hl]

/-- C3 witness: an object without the `historical` key yields the empty
list. -/
theorem claim_C3_witness :
    get_historical_daily (some (Json.obj [("symbol", Json.num 1)])) =
      .ok (Json.arr []) :=
  (claim_C3_amended (some (Json.obj [("symbol", Json.num 1)]))).2.1
    [("symbol", Json.num 1)] rfl rfl

/-- C3 counterexample: an upstream body `5` parses to a truthy non-dict
value that lacks a `historical` field, yet the endpoint does not return
the empty list — `"historical" in 5` raises a `TypeError` that no handler
catches, so the request fails with FastAPI's generic 500. -/
theorem claim_C3_counterexample :
    get_historical_daily_endpoint "k"
        (fun _ => UpstreamResult.response ⟨200, "5", some (Json.num 5)⟩) "AAPL" =
      .error unhandledError
    ∧ get_historical_daily_endpoint "k"
        (fun _ => UpstreamResult.response ⟨200, "5", some (Json.num 5)⟩) "AAPL" ≠
      .ok (Json.arr []) :=
  ⟨rfl, fun h => nomatch h⟩

/-- C10: whenever at least one of the three raw fetch results of
`/api/stock/{ticker}` is truthy but none of them is a list, the not-found
check passes and the endpoint succeeds with `profile: null`,
`quote: null` and an empty `chart_intraday`, because the 404 guard
inspects the raw fetch results while the merge only extracts from
lists. -/
theorem claim_C10 (ticker : String) (p q c : Option Json)
    (hany : (pyTruthy p || pyTruthy q || pyTruthy c) = true)
    (hp : isListOpt p = false) (hq : isListOpt q = false)
    (hc : isListOpt c = false) :
    get_stock_all_data ticker p q c =
      .ok (Json.obj [("profile", Json.null), ("quote", Json.null),
        ("chart_intraday", Json.arr [])]) := by
  unfold get_stock_all_data
  rw [hany, headOrNull_of_nonlist hp, headOrNull_of_nonlist hq,
    listOrEmpty_of_nonlist hc]
  rfl

/-- C10 witness: a truthy JSON object as the profile result with the
other two results empty. -/
theorem claim_C10_witness :
    get_stock_all_data "AAPL"
        (some (Json.obj [("companyName", Json.str "Apple")])) none none =
      .ok (Json.obj [("profile", Json.null), ("quote", Json.null),
        ("chart_intraday", Json.arr [])]) :=
  claim_C10 "AAPL" (some (Json.obj [("companyName", Json.str "Apple")]))
    none none rfl rfl rfl rfl

/-- C1: when all three upstream fetches of `/api/stock/{ticker}` return
(rather than raise), the endpoint raises its 404 exactly when all three
results are the `None` sentinel, and succeeds whenever at least one is
non-empty.  The `any` guard tests truthiness, but by `fetch_ok_pyTruthy`
a returned fetch result is truthy exactly when it is not the sentinel. -/
theorem claim_C1 (apiKey : String) (client : Client) (ticker : String)
    (p q c : Option Json)
    (hp : fetch_fmp_data apiKey client ("/profile/" ++ ticker) = .ok p)
    (hq : fetch_fmp_data apiKey client ("/quote/" ++ ticker) = .ok q)
    (hc : fetch_fmp_data apiKey client ("/historical-chart/5min/" ++ ticker) =
      .ok c) :
    (get_stock_all_data_endpoint apiKey client ticker =
        .error ⟨404, "Could not retrieve any data for ticker " ++ ticker ++ "."⟩
      ↔ p = none ∧ q = none ∧ c = none)
    ∧ (¬(p = none ∧ q = none ∧ c = none) →
        ∃ out, get_stock_all_data_endpoint apiKey client ticker = .ok out) := by
  have hp' := fetch_ok_pyTruthy _ _ _ _ hp
  have hq' := fetch_ok_pyTruthy _ _ _ _ hq
  have hc' := fetch_ok_pyTruthy _ _ _ _ hc
  simp only [get_stock_all_data_endpoint, hp, hq, hc, Except.bind,
    get_stock_all_data]
  cases p <;> cases q <;> cases c <;> simp_all [pyTruthy]

/-- C1 witness: all three upstream calls return the empty list, so all
three fetch results are the sentinel and the endpoint raises the 404. -/
theorem claim_C1_witness :
    get_stock_all_data_endpoint "k"
        (fun _ => UpstreamResult.response ⟨200, "[]", some (Json.arr [])⟩)
        "AAPL" =
      .error ⟨404, "Could not retrieve any data for ticker " ++ "AAPL" ++ "."⟩ :=
  (claim_C1 "k" (fun _ => UpstreamResult.response ⟨200, "[]", some (Json.arr [])⟩)
      "AAPL" none none none rfl rfl rfl).1.mpr ⟨rfl, rfl, rfl⟩

/-- C8: when the profile fetch of `/api/stock/{ticker}` yields the `None`
sentinel while the quote and intraday fetches yield non-empty lists, the
endpoint succeeds with `profile: null`, the quote list's element 0 as
`quote`, and the intraday list as `chart_intraday`. -/
theorem claim_C8 (apiKey : String) (client : Client) (ticker : String)
    (x : Json) (xs : List Json) (c0 : Json) (cs : List Json)
    (hp : fetch_fmp_data apiKey client ("/profile/" ++ ticker) = .ok none)
    (hq : fetch_fmp_data apiKey client ("/quote/" ++ ticker) =
      .ok (some (Json.arr (x :: xs))))
    (hc : fetch_fmp_data apiKey client ("/historical-chart/5min/" ++ ticker) =
      .ok (some (Json.arr (c0 :: cs)))) :
    get_stock_all_data_endpoint apiKey client ticker =
      .ok (Json.obj [("profile", Json.null), ("quote", x),
        ("chart_intraday", Json.arr (c0 :: cs))]) := by
  simp [get_stock_all_data_endpoint, hp, hq, hc, Except.bind,
    get_stock_all_data, pyTruthy, Json.truthy, headOrNull, listOrEmpty]

/-- C8 witness: a client whose profile call returns the empty list while
the quote and intraday calls return one-element lists. -/
theorem claim_C8_witness :
    get_stock_all_data_endpoint "k"
        (fun url =>
          if url = "https://financialmodelingprep.com/api/v3/profile/AAPL?apikey=k" then
            UpstreamResult.response ⟨200, "[]", some (Json.arr [])⟩
          else if url = "https://financialmodelingprep.com/api/v3/quote/AAPL?apikey=k" then
            UpstreamResult.response ⟨200, "", some (Json.arr [Json.num 1])⟩
          else
            UpstreamResult.response ⟨200, "", some (Json.arr [Json.num 2])⟩)
        "AAPL" =
      .ok (Json.obj [("profile", Json.null), ("quote", Json.num 1),
        ("chart_intraday", Json.arr [Json.num 2])]) :=
  claim_C8 "k"
    (fun url =>
      if url = "https://financialmodelingprep.com/api/v3/profile/AAPL?apikey=k" then
        UpstreamResult.response ⟨200, "[]", some (Json.arr [])⟩
      else if url = "https://financialmodelingprep.com/api/v3/quote/AAPL?apikey=k" then
        UpstreamResult.response ⟨200, "", some (Json.arr [Json.num 1])⟩
      else
        UpstreamResult.response ⟨200, "", some (Json.arr [Json.num 2])⟩)
    "AAPL" (Json.num 1) [] (Json.num 2) [] rfl rfl rfl

/-- C4 (amended): `fetch_fmp_data` issues the GET to
`{BASE_URL}{endpoint}?apikey={key}` and, on a 2xx response, returns the
parsed JSON body when that value is truthy and the `None` sentinel when
it is falsy; a body that is not valid JSON — in particular a literally
empty body — does not yield the sentinel but raises the generic 500
`HTTPException` (see `claim_C4_counterexample`). -/
theorem claim_C4_amended (apiKey : String) (client : Client) (endpoint : String)
    (r : UpstreamResponse)
    (hresp : client (fmp_url apiKey endpoint) = .response r)
    (hstatus : is2xx r.status = true) :
    (∀ d, r.json = some d → d.truthy = true →
        fetch_fmp_data apiKey client endpoint = .ok (some d))
    ∧ (∀ d, r.json = some d → d.truthy = false →
        fetch_fmp_data apiKey client endpoint = .ok none)
    ∧ (r.json = none →
        fetch_fmp_data apiKey client endpoint = .error internalError) := by
  refine ⟨?_, ?_, ?_⟩
  · intro d hj ht
    simp [fetch_fmp_data, hresp, hstatus, hj, ht]
  · intro d hj ht
    simp [fetch_fmp_data, hresp, hstatus, hj, ht]
  · intro hj
    simp [fetch_fmp_data, hresp, hstatus, hj]

/-- C4 witness: a truthy parsed body is returned as-is. -/
theorem claim_C4_witness :
    fetch_fmp_data "k"
        (fun _ => UpstreamResult.response ⟨200, "[1]", some (Json.arr [Json.num 1])⟩)
        "/quote/AAPL" =
      .ok (some (Json.arr [Json.num 1])) :=
  (claim_C4_amended "k"
      (fun _ => UpstreamResult.response ⟨200, "[1]", some (Json.arr [Json.num 1])⟩)
      "/quote/AAPL" ⟨200, "[1]", some (Json.arr [Json.num 1])⟩ rfl rfl).1
    (Json.arr [Json.num 1]) rfl rfl

/-- C4 counterexample: a 2xx response with a literally empty body.  The
claim says the helper returns the `None` sentinel rather than failing,
but `response.json()` raises on the empty string and the generic handler
turns that into the 500 `HTTPException`. -/
theorem claim_C4_counterexample :
    fetch_fmp_data "k" (fun _ => UpstreamResult.response ⟨200, "", none⟩)
        "/quote/AAPL" =
      .error internalError
    ∧ fetch_fmp_data "k" (fun _ => UpstreamResult.response ⟨200, "", none⟩)
        "/quote/AAPL" ≠
      .ok none :=
  ⟨rfl, fun h => nomatch h⟩

/-- C5: a non-2xx upstream response makes `fetch_fmp_data` raise an
`HTTPException` whose status code is exactly the upstream status code and
whose detail carries the upstream response body (prefixed with
"Error from external API: "); any other exception — a network failure, or
a body that fails to parse as JSON — yields the fixed generic 500. -/
theorem claim_C5 (apiKey : String) (client : Client) (endpoint : String) :
    (∀ r, client (fmp_url apiKey endpoint) = .response r →
        is2xx r.status = false →
        fetch_fmp_data apiKey client endpoint =
          .error ⟨r.status, "Error from external API: " ++ r.text⟩)
    ∧ (client (fmp_url apiKey endpoint) = .networkError →
        fetch_fmp_data apiKey client endpoint = .error internalError)
    ∧ (∀ r, client (fmp_url apiKey endpoint) = .response r →
        is2xx r.status = true → r.json = none →
        fetch_fmp_data apiKey client endpoint = .error internalError) := by
  refine ⟨?_, ?_, ?_⟩
  · intro r hresp hstatus
    simp [fetch_fmp_data, hresp, hstatus]
  · intro hresp
    simp [fetch_fmp_data, hresp]
  · intro r hresp hstatus hj
    simp [fetch_fmp_data, hresp, hstatus, hj]

/-- C5 witness: an upstream 404 is mirrored with its body in the detail. -/
theorem claim_C5_witness :
    fetch_fmp_data "k"
        (fun _ => UpstreamResult.response ⟨404, "Not Found", none⟩)
        "/quote/MISSING" =
      .error ⟨404, "Error from external API: " ++ "Not Found"⟩ :=
  (claim_C5 "k" (fun _ => UpstreamResult.response ⟨404, "Not Found", none⟩)
      "/quote/MISSING").1 ⟨404, "Not Found", none⟩ rfl rfl

/-- C9: every falsy parsed JSON value (empty list, empty object, empty
string, `0`, `false`, `null`) is collapsed by `fetch_fmp_data` to the
`None` sentinel; consequently `/api/quote/{ticker}` answers 404 when the
upstream quote body is the empty list, and `/api/historical/daily/{ticker}`
returns the empty list when the upstream body is an empty object or empty
list. -/
theorem claim_C9 (apiKey : String) (client : Client) :
    (∀ endpoint r d, client (fmp_url apiKey endpoint) = .response r →
        is2xx r.status = true → r.json = some d → d.truthy = false →
        fetch_fmp_data apiKey client endpoint = .ok none)
    ∧ (∀ ticker r, client (fmp_url apiKey ("/quote/" ++ ticker)) = .response r →
        is2xx r.status = true → r.json = some (Json.arr []) →
        get_quote_endpoint apiKey client ticker =
          .error ⟨404, "Quote data for ticker not found."⟩)
    ∧ (∀ ticker r,
        client (fmp_url apiKey ("/historical-price-full/" ++ ticker)) =
          .response r →
        is2xx r.status = true →
        (r.json = some (Json.obj []) ∨ r.json = some (Json.arr [])) →
        get_historical_daily_endpoint apiKey client ticker =
          .ok (Json.arr [])) := by
  refine ⟨?_, ?_, ?_⟩
  · intro endpoint r d hresp hstatus hj ht
    simp [fetch_fmp_data, hresp, hstatus, hj, ht]
  · intro ticker r hresp hstatus hj
    simp [get_quote_endpoint, fetch_fmp_data, hresp, hstatus, hj, Except.bind,
      get_quote, Json.truthy]
  · intro ticker r hresp hstatus hj
    rcases hj with hj | hj <;>
      simp [get_historical_daily_endpoint, fetch_fmp_data, hresp, hstatus, hj,
        Except.bind, get_historical_daily, Json.truthy]

/-- C9 witness: the falsy parsed body `0` becomes the sentinel. -/
theorem claim_C9_witness :
    fetch_fmp_data "k"
        (fun _ => UpstreamResult.response ⟨200, "0", some (Json.num 0)⟩)
        "/quote/AAPL" =
      .ok none :=
  (claim_C9 "k"
      (fun _ => UpstreamResult.response ⟨200, "0", some (Json.num 0)⟩)).1
    "/quote/AAPL" ⟨200, "0", some (Json.num 0)⟩ (Json.num 0) rfl rfl rfl rfl

/-- C6 (amended): the `HistoricalDataPoint` schema reshapes each element
of the `historical` array into exactly 13 typed fields, not 11 as claimed
(see `claim_C6_counterexample`); four of them are populated from camelCase
aliases, and the serialised output keys each field by that alias (FastAPI
serialises by alias by default), so the keys are not renamed. -/
theorem claim_C6_amended (h : HistoricalDataPoint) :
    (HistoricalDataPoint.toJson h).keys =
      HistoricalDataPoint.fieldAliases.map Prod.snd
    ∧ HistoricalDataPoint.fieldAliases.length = 13 :=
  ⟨rfl, rfl⟩

/-- C6 counterexample: the schema declared on lines 89-102 has 13 fields,
so a reshaped element carries 13 keys, not 11. -/
theorem claim_C6_counterexample :
    HistoricalDataPoint.fieldAliases.length = 13
    ∧ ¬HistoricalDataPoint.fieldAliases.length = 11
    ∧ (HistoricalDataPoint.toJson
        ⟨"2024-01-02", 1, 2, 3, 4, 5, 6, 7, 8, 9, 10, "Jan 02, 24", 11⟩).keys.length
      ≠ 11 := by
  refine ⟨rfl, by decide, by decide⟩

/-- C7 counterexample: a complete validated quote serialises with the
camelCase alias keys — `response_model_by_alias` defaults to `True` and
the route does not override it — so the output has no
`changes_percentage` key and keeps `changesPercentage`, contradicting the
claimed renaming to snake_case. -/
theorem claim_C7_counterexample :
    StockQuote.validate (Json.obj [("symbol", Json.str "AAPL"),
        ("name", Json.str "Apple"), ("price", Json.num 100),
        ("changesPercentage", Json.num 1), ("change", Json.num 2),
        ("dayLow", Json.num 90), ("dayHigh", Json.num 110),
        ("volume", Json.num 5), ("exchange", Json.str "NASDAQ")]) =
      some ⟨"AAPL", "Apple", 100, 1, 2, 90, 110, none, 5, "NASDAQ"⟩
    ∧ (StockQuote.toJson ⟨"AAPL", "Apple", 100, 1, 2, 90, 110, none, 5, "NASDAQ"⟩).keys ≠
      ["symbol", "name", "price", "changes_percentage", "change", "day_low",
       "day_high", "market_cap", "volume", "exchange"]
    ∧ (StockQuote.toJson ⟨"AAPL", "Apple", 100, 1, 2, 90, 110, none, 5, "NASDAQ"⟩).lookup
        "changes_percentage" = none
    ∧ (StockQuote.toJson ⟨"AAPL", "Apple", 100, 1, 2, 90, 110, none, 5, "NASDAQ"⟩).lookup
        "changesPercentage" = some (Json.num 1) :=
  ⟨rfl, by decide, rfl, rfl⟩

/-- C7 (amended): whatever object the quote handler successfully returns
and pydantic validates, FastAPI serialises it with exactly the ten
declared keys of the `StockQuote` schema **by alias**: the camelCase
upstream keys `changesPercentage`, `dayLow`, `dayHigh` and `marketCap`
are preserved in the output rather than renamed to snake_case, their
values carried over from the upstream object, and a missing upstream
`marketCap` serialises as `marketCap: null`. -/
theorem claim_C7_amended (apiKey : String) (client : Client) (ticker : String)
    (x : Json) (q : StockQuote)
    (_hok : get_quote_endpoint apiKey client ticker = .ok x)
    (hval : StockQuote.validate x = some q) :
    (StockQuote.toJson q).keys =
      ["symbol", "name", "price", "changesPercentage", "change", "dayLow",
       "dayHigh", "marketCap", "volume", "exchange"]
    ∧ (StockQuote.toJson q).lookup "changesPercentage" =
      x.lookup "changesPercentage"
    ∧ (StockQuote.toJson q).lookup "dayLow" = x.lookup "dayLow"
    ∧ (StockQuote.toJson q).lookup "dayHigh" = x.lookup "dayHigh"
    ∧ (x.lookup "marketCap" = none →
        (StockQuote.toJson q).lookup "marketCap" = some Json.null) := by
  simp only [StockQuote.validate, Option.bind_eq_bind', Option.bind_eq_some',
    Option.pure_def, Option.some.injEq] at hval
  obtain ⟨s, ⟨vs, hvs, hs⟩, n, ⟨vn, hvn, hn⟩, pr, ⟨vpr, hvpr, hpr⟩,
    cp, ⟨vcp, hvcp, hcp⟩, ch, ⟨vch, hvch, hch⟩, dl, ⟨vdl, hvdl, hdl⟩,
    dh, ⟨vdh, hvdh, hdh⟩, mc, hmc, vol, ⟨vvol, hvvol, hvol⟩,
    ex, ⟨vex, hvex, hex⟩, hq⟩ := hval
  subst hq
  refine ⟨rfl, ?_, ?_, ?_, ?_⟩
  · rw [hvcp, Json.asNum_eq_some hcp]
    rfl
  · rw [hvdl, Json.asNum_eq_some hdl]
    rfl
  · rw [hvdh, Json.asNum_eq_some hdh]
    rfl
  · intro hnone
    rw [hnone] at hmc
    simp only [optionalIntField, Option.some.injEq] at hmc
    subst hmc
    rfl

/-- C7 witness: a complete upstream quote without `marketCap`, validated
and serialised. -/
theorem claim_C7_witness :
    (StockQuote.toJson ⟨"AAPL", "Apple", 100, 1, 2, 90, 110, none, 5, "NASDAQ"⟩).keys =
      ["symbol", "name", "price", "changesPercentage", "change", "dayLow",
       "dayHigh", "marketCap", "volume", "exchange"]
    ∧ (StockQuote.toJson ⟨"AAPL", "Apple", 100, 1, 2, 90, 110, none, 5, "NASDAQ"⟩).lookup
        "changesPercentage" =
      (Json.obj [("symbol", Json.str "AAPL"), ("name", Json.str "Apple"),
        ("price", Json.num 100), ("changesPercentage", Json.num 1),
        ("change", Json.num 2), ("dayLow", Json.num 90),
        ("dayHigh", Json.num 110), ("volume", Json.num 5),
        ("exchange", Json.str "NASDAQ")]).lookup "changesPercentage"
    ∧ (StockQuote.toJson ⟨"AAPL", "Apple", 100, 1, 2, 90, 110, none, 5, "NASDAQ"⟩).lookup
        "dayLow" =
      (Json.obj [("symbol", Json.str "AAPL"), ("name", Json.str "Apple"),
        ("price", Json.num 100), ("changesPercentage", Json.num 1),
        ("change", Json.num 2), ("dayLow", Json.num 90),
        ("dayHigh", Json.num 110), ("volume", Json.num 5),
        ("exchange", Json.str "NASDAQ")]).lookup "dayLow"
    ∧ (StockQuote.toJson ⟨"AAPL", "Apple", 100, 1, 2, 90, 110, none, 5, "NASDAQ"⟩).lookup
        "dayHigh" =
      (Json.obj [("symbol", Json.str "AAPL"), ("name", Json.str "Apple"),
        ("price", Json.num 100), ("changesPercentage", Json.num 1),
        ("change", Json.num 2), ("dayLow", Json.num 90),
        ("dayHigh", Json.num 110), ("volume", Json.num 5),
        ("exchange", Json.str "NASDAQ")]).lookup "dayHigh"
    ∧ ((Json.obj [("symbol", Json.str "AAPL"), ("name", Json.str "Apple"),
        ("price", Json.num 100), ("changesPercentage", Json.num 1),
        ("change", Json.num 2), ("dayLow", Json.num 90),
        ("dayHigh", Json.num 110), ("volume", Json.num 5),
        ("exchange", Json.str "NASDAQ")]).lookup "marketCap" = none →
      (StockQuote.toJson ⟨"AAPL", "Apple", 100, 1, 2, 90, 110, none, 5, "NASDAQ"⟩).lookup
        "marketCap" = some Json.null) :=
  claim_C7_amended "k"
    (fun _ => UpstreamResult.response ⟨200, "",
      some (Json.arr [Json.obj [("symbol", Json.str "AAPL"),
        ("name", Json.str "Apple"), ("price", Json.num 100),
        ("changesPercentage", Json.num 1), ("change", Json.num 2),
        ("dayLow", Json.num 90), ("dayHigh", Json.num 110),
        ("volume", Json.num 5), ("exchange", Json.str "NASDAQ")]])⟩)
    "AAPL"
    (Json.obj [("symbol", Json.str "AAPL"), ("name", Json.str "Apple"),
      ("price", Json.num 100), ("changesPercentage", Json.num 1),
      ("change", Json.num 2), ("dayLow", Json.num 90),
      ("dayHigh", Json.num 110), ("volume", Json.num 5),
      ("exchange", Json.str "NASDAQ")])
    ⟨"AAPL", "Apple", 100, 1, 2, 90, 110, none, 5, "NASDAQ"⟩ rfl rfl

end StockAPI
